import Mathlib

/-!
Verification of the autotranslate plugin core: the output sanitizer
(provider.go cleanTranslationOutput), the prompt builders, the LLM provider
request/response stages, and the message-event gate
(activate_hooks.go MessageHasBeenPosted).

Strings are modelled as rune sequences (List Char). All needles the code
searches for (labels, quotes, markers) are ASCII, so byte-oriented Go
operations (slicing, HasPrefix, Index) coincide with rune-oriented ones on
valid UTF-8 input; the model is therefore stated on rune lists.
-/

namespace Autotranslate

/-- Go unicode.IsSpace: the Unicode White_Space code points
(U+0009..U+000D, space, NEL, NBSP, U+1680, U+2000..U+200A, U+2028, U+2029,
U+202F, U+205F, U+3000). -/
def isGoSpace (c : Char) : Bool :=
  let n := c.toNat
  (9 ≤ n && n ≤ 13) || n == 32 || n == 0x85 || n == 0xA0 || n == 0x1680 ||
  (0x2000 ≤ n && n ≤ 0x200A) || n == 0x2028 || n == 0x2029 || n == 0x202F ||
  n == 0x205F || n == 0x3000

/-- Go strings.TrimSpace: drop leading and trailing white space runes. -/
def trimSpace (l : List Char) : List Char :=
  (l.dropWhile isGoSpace).rdropWhile isGoSpace

/-- Go strings.TrimSpace lifted to String. -/
def trimSpaceS (s : String) : String := ⟨trimSpace s.data⟩

/-- Rune index of the first occurrence of needle in the haystack
(Go strings.Index; for the ASCII needles used here the first byte
occurrence is the first rune occurrence). none models index -1. -/
def strIndex (needle : List Char) : List Char → Option Nat
  | [] => if needle = [] then some 0 else none
  | c :: rest =>
    if needle.isPrefixOf (c :: rest) then some 0
    else (strIndex needle rest).map (· + 1)

/-- Go pattern: if idx := strings.Index(text, marker); idx != -1 then text = text[:idx]. -/
def truncAt (marker text : List Char) : List Char :=
  match strIndex marker text with
  | some i => text.take i
  | none => text

/-- The unwantedPrefixes list of provider.go (cleanTranslationOutput). -/
def unwantedPrefixes : List (List Char) :=
  ["Translation: ".data, "Translated text: ".data,
   "Here is the translation: ".data, "The translation is: ".data,
   "Output: ".data, "Answer: ".data, "Result: ".data]

/-- One iteration of the label-stripping loop of cleanTranslationOutput:
if strings.HasPrefix(text, lbl) then text = TrimSpace(TrimPrefix(text, lbl)). -/
def stripLabelStep (t lbl : List Char) : List Char :=
  if lbl.isPrefixOf t then trimSpace (t.drop lbl.length) else t

/-- The full label-stripping loop (a single in-order pass over unwantedPrefixes). -/
def stripLabels (t : List Char) : List Char :=
  unwantedPrefixes.foldl stripLabelStep t

/-- The double-quote rune. -/
def dQuote : Char := Char.ofNat 34

/-- The single-quote rune. -/
def sQuote : Char := Char.ofNat 39

/-- The quote-wrap condition of cleanTranslationOutput:
(HasPrefix dq and HasSuffix dq) or (HasPrefix sq and HasSuffix sq). -/
def quoteWrapped (t : List Char) : Bool :=
  ([dQuote].isPrefixOf t && [dQuote].isSuffixOf t) ||
  ([sQuote].isPrefixOf t && [sQuote].isSuffixOf t)

def noteMarker : List Char := "\n\nNote:".data

def explMarker : List Char := "\n\nExplanation:".data

/-- The tail of cleanTranslationOutput after the quote step: truncate at the
first embedded note and explanation markers, then final TrimSpace. -/
def cleanTail (t : List Char) : List Char :=
  trimSpace (truncAt explMarker (truncAt noteMarker t))

/-- Quote-stripping stage of cleanTranslationOutput. When the wrap condition
holds, Go evaluates text[1 : len(text)-1]; if the remaining text is the single
rune dQuote or sQuote that slice is text[1:0], which panics at run time
(slice bounds out of range). The panic is modelled as none. -/
def quoteStage (t : List Char) : Option (List Char) :=
  if quoteWrapped t then
    if 2 ≤ t.length then some (cleanTail (trimSpace ((t.drop 1).dropLast)))
    else none
  else some (cleanTail t)

/-- provider.go cleanTranslationOutput: TrimSpace, strip unwanted labels,
strip one quote layer, truncate trailing notes, final TrimSpace.
Returns none exactly when the Go code panics. -/
def cleanTranslationOutput (text : List Char) : Option (List Char) :=
  quoteStage (stripLabels (trimSpace text))

/-- The languageNames map of provider.go getLanguageName. -/
def languageNames : List (String × String) :=
  [("auto", "Auto-detect"), ("af", "Afrikaans"), ("sq", "Albanian"),
   ("am", "Amharic"), ("ar", "Arabic"), ("hy", "Armenian"),
   ("az", "Azerbaijani"), ("bn", "Bengali"), ("bs", "Bosnian"),
   ("bg", "Bulgarian"), ("ca", "Catalan"), ("zh", "Chinese (Simplified)"),
   ("zh-TW", "Chinese (Traditional)"), ("hr", "Croatian"), ("cs", "Czech"),
   ("da", "Danish"), ("fa-AF", "Dari"), ("nl", "Dutch"), ("en", "English"),
   ("et", "Estonian"), ("fa", "Farsi (Persian)"), ("tl", "Filipino, Tagalog"),
   ("fi", "Finnish"), ("fr", "French"), ("fr-CA", "French (Canada)"),
   ("ka", "Georgian"), ("de", "German"), ("el", "Greek"), ("gu", "Gujarati"),
   ("ht", "Haitian Creole"), ("ha", "Hausa"), ("he", "Hebrew"),
   ("hi", "Hindi"), ("hu", "Hungarian"), ("is", "Icelandic"),
   ("id", "Indonesian"), ("it", "Italian"), ("ja", "Japanese"),
   ("kn", "Kannada"), ("kk", "Kazakh"), ("ko", "Korean"), ("lv", "Latvian"),
   ("lt", "Lithuanian"), ("mk", "Macedonian"), ("ms", "Malay"),
   ("ml", "Malayalam"), ("mt", "Maltese"), ("mr", "Marathi"),
   ("mn", "Mongolian"), ("no", "Norwegian"), ("ps", "Pashto"),
   ("pl", "Polish"), ("pt", "Portuguese"), ("pa", "Punjabi"),
   ("ro", "Romanian"), ("ru", "Russian"), ("sr", "Serbian"),
   ("si", "Sinhala"), ("sk", "Slovak"), ("sl", "Slovenian"),
   ("so", "Somali"), ("es", "Spanish"), ("es-MX", "Spanish (Mexico)"),
   ("sw", "Swahili"), ("sv", "Swedish"), ("ta", "Tamil"), ("te", "Telugu"),
   ("th", "Thai"), ("tr", "Turkish"), ("uk", "Ukrainian"), ("ur", "Urdu"),
   ("uz", "Uzbek"), ("vi", "Vietnamese"), ("cy", "Welsh")]

/-- provider.go getLanguageName: language code to display name, defaulting to
the code itself. -/
def getLanguageName (code : String) : String :=
  match languageNames.find? (fun kv => kv.1 == code) with
  | some kv => kv.2
  | none => code

/-- The clarifications map of provider.go getLanguageClarification. -/
def clarifications : List (String × String) :=
  [("ko", " (한국어, using Hangul script, NOT Chinese)"),
   ("ja", " (日本語, using Hiragana/Katakana/Kanji, NOT Chinese or Korean)"),
   ("zh", " (中文简体, Simplified Chinese characters)"),
   ("zh-TW", " (中文繁體, Traditional Chinese characters)"),
   ("en", " (English)"),
   ("ar", " (العربية, Arabic script)"),
   ("he", " (עברית, Hebrew script)"),
   ("hi", " (हिन्दी, Devanagari script)"),
   ("ru", " (Русский, Cyrillic script)"),
   ("th", " (ไทย, Thai script)")]

/-- provider.go getLanguageClarification: extra script hint for commonly
confused languages, defaulting to the empty string. -/
def getLanguageClarification (code : String) : String :=
  match clarifications.find? (fun kv => kv.1 == code) with
  | some kv => kv.2
  | none => ""

/-- provider.go createTranslationPrompt (completion-style prompt builder). -/
def createTranslationPrompt (text sourceLang targetLang : String) : String :=
  let sourceLanguageName := getLanguageName sourceLang
  let targetLanguageName := getLanguageName targetLang
  let targetClarification := getLanguageClarification targetLang
  let sourceClarification :=
    if sourceLang == "auto" then "" else getLanguageClarification sourceLang
  if sourceLang == "auto" then
    "Translate to " ++ targetLanguageName ++ targetClarification ++
      ". Reply with ONLY the translation.\n\n" ++ text
  else
    "Translate from " ++ sourceLanguageName ++ sourceClarification ++
      " to " ++ targetLanguageName ++ targetClarification ++
      ". Reply with ONLY the translation.\n\n" ++ text

/-- The user-turn prompt built inline by LiteLLMProvider.Translate
(chat-style prompt builder). -/
def litellmUserPrompt (text sourceLang targetLang : String) : String :=
  let sourceLanguageName := getLanguageName sourceLang
  let targetLanguageName := getLanguageName targetLang
  let targetClarification := getLanguageClarification targetLang
  let sourceClarification :=
    if sourceLang == "auto" then "" else getLanguageClarification sourceLang
  if sourceLang == "auto" then
    "Translate to " ++ targetLanguageName ++ targetClarification ++
      ":\n\n" ++ text
  else
    "Translate from " ++ sourceLanguageName ++ sourceClarification ++
      " to " ++ targetLanguageName ++ targetClarification ++
      ":\n\n" ++ text

/-- provider.go VLLMProvider (apiURL, apiKey, model). -/
structure VLLMProvider where
  apiURL : String
  apiKey : String
  model : String

/-- provider.go VLLMRequest (the completion-style request body). -/
structure VLLMRequest where
  model : String
  prompt : String
  maxTokens : Nat
  temperature : Rat
  stop : List String

/-- The request body VLLMProvider.Translate marshals: MaxTokens 512,
Temperature 0.1, six stop sequences. -/
def VLLMProvider.mkTranslateRequest (p : VLLMProvider)
    (text sourceLang targetLang : String) : VLLMRequest :=
  { model := p.model,
    prompt := createTranslationPrompt text sourceLang targetLang,
    maxTokens := 512,
    temperature := 0.1,
    stop := ["\n\n", "\nNote:", "\nExplanation:", "\nTranslation:",
             "\n\nInput:", "[/INST]"] }

/-- One element of VLLMResponse.Choices. -/
structure VLLMChoice where
  text : String

/-- provider.go VLLMResponse. -/
structure VLLMResponse where
  choices : List VLLMChoice

/-- The response-handling stage of VLLMProvider.Translate, from a decoded
VLLMResponse onward: empty choice list is an error, otherwise the first
choice text is passed through cleanTranslationOutput. none models the Go
panic inside cleanTranslationOutput. -/
def vllmTranslateResponse (r : VLLMResponse) : Option (Except String String) :=
  match r.choices with
  | [] => some (Except.error "no translation returned from vLLM")
  | c :: _ =>
    (cleanTranslationOutput c.text.data).map (fun t => Except.ok (⟨t⟩ : String))

/-- provider.go LiteLLMProvider (apiURL, apiKey, model). -/
structure LiteLLMProvider where
  apiURL : String
  apiKey : String
  model : String

/-- provider.go LiteLLMChatMessage. -/
structure LiteLLMChatMessage where
  role : String
  content : String

/-- provider.go LiteLLMChatRequest. The struct has Model, Messages,
Temperature and MaxTokens fields only: no stop-sequence field exists, so
chat-style requests transmit no stop sequences. -/
structure LiteLLMChatRequest where
  model : String
  messages : List LiteLLMChatMessage
  temperature : Rat
  maxTokens : Nat

/-- The stop sequences a LiteLLM chat request carries on the wire: the
LiteLLMChatRequest struct of provider.go has no stop field. -/
def litellmStopSequences : List String := []

/-- The request body LiteLLMProvider.Translate marshals: a system turn plus
the user prompt, Temperature 0.3, MaxTokens 2048. -/
def LiteLLMProvider.mkTranslateRequest (p : LiteLLMProvider)
    (text sourceLang targetLang : String) : LiteLLMChatRequest :=
  { model := p.model,
    messages :=
      [{ role := "system",
         content := "You are a translation system. Output ONLY the translated text without any explanations, notes, or additional commentary." },
       { role := "user",
         content := litellmUserPrompt text sourceLang targetLang }],
    temperature := 0.3,
    maxTokens := 2048 }

/-- One element of LiteLLMChatResponse.Choices. -/
structure LiteLLMChatChoice where
  message : LiteLLMChatMessage

/-- provider.go LiteLLMChatResponse. -/
structure LiteLLMChatResponse where
  choices : List LiteLLMChatChoice

/-- The response-handling stage of LiteLLMProvider.Translate, from a decoded
LiteLLMChatResponse onward: empty choice list is an error, otherwise the
first choice message content is passed through cleanTranslationOutput. -/
def litellmTranslateResponse (r : LiteLLMChatResponse) :
    Option (Except String String) :=
  match r.choices with
  | [] => some (Except.error "no translation returned from LiteLLM")
  | c :: _ =>
    (cleanTranslationOutput c.message.content.data).map
      (fun t => Except.ok (⟨t⟩ : String))

/-- model.SlackAttachment, restricted to the fields the plugin sets. -/
structure SlackAttachment where
  text : String
  pretext : String
  color : String
deriving DecidableEq

/-- A value stored in a post Props map (map from string to interface value in
the source): a boolean, a string, or a slack-attachment list. -/
inductive PropValue where
  | b (v : Bool)
  | s (v : String)
  | atts (v : List SlackAttachment)
deriving DecidableEq

/-- model.Post, restricted to the fields the plugin reads or writes. The
Props map is modelled as an association list; a nil map is the empty list. -/
structure Post where
  id : String
  type : String
  userId : String
  channelId : String
  rootId : String
  message : String
  props : List (String × PropValue)
deriving DecidableEq

/-- model.Post.IsSystemMessage: the post type starts with "system_". -/
def Post.isSystemMessage (post : Post) : Bool :=
  "system_".data.isPrefixOf post.type.data

/-- Props lookup (Go map indexing). -/
def Post.getProp (post : Post) (key : String) : Option PropValue :=
  (post.props.find? (fun kv => kv.1 == key)).map (fun kv => kv.2)

/-- model.User, restricted to the one field the hook reads. -/
structure User where
  isBot : Bool
deriving DecidableEq

/-- The per-user autotranslate preference record (UserInfo), restricted to
the fields the hook reads. -/
structure UserInfo where
  activated : Bool
  sourceLanguage : String
  targetLanguage : String
deriving DecidableEq

/-- The plugin configuration fields the hook reads. -/
structure Configuration where
  botUsername : String
  botIconURL : String
deriving DecidableEq

/-- The collaborators MessageHasBeenPosted consults, fixed for one event:
the resolved configuration, the result of p.API.GetUser for the posting
user, the result of p.getUserInfo, and the result of
p.getTranslationProvider, whose Translate method is a function from
(text, sourceLang, targetLang) to a result or an error. -/
structure GateEnv where
  config : Configuration
  getUser : Except String User
  getUserInfo : Except String UserInfo
  getTranslationProvider :
    Except String (String → String → String → Except String String)

/-- activate_hooks.go MessageHasBeenPosted. The return value is the post
handed to p.API.CreatePost (none when the handler returns without creating
a post). Checks in source order: system message, GetUser, IsBot, user info,
Activated, provider resolution, Translate, trimmed-equality short circuit,
then the reply post with RootId set to the original post Id. -/
def messageHasBeenPosted (p : GateEnv) (post : Post) : Option Post :=
  if post.isSystemMessage then none else
  match p.getUser with
  | Except.error _ => none
  | Except.ok user =>
  if user.isBot then none else
  match p.getUserInfo with
  | Except.error _ => none
  | Except.ok userInfo =>
  if !userInfo.activated then none else
  match p.getTranslationProvider with
  | Except.error _ => none
  | Except.ok translateF =>
  match translateF post.message userInfo.sourceLanguage userInfo.targetLanguage with
  | Except.error _ => none
  | Except.ok translatedText =>
  if trimSpaceS translatedText == trimSpaceS post.message then none else
  let sourceLangDisplay :=
    if userInfo.sourceLanguage == "auto" then "detected"
    else userInfo.sourceLanguage
  let botMessage :=
    "**[" ++ sourceLangDisplay ++ " → " ++ userInfo.targetLanguage ++
      "]**\n" ++ translatedText
  let botUsername :=
    if p.config.botUsername == "" then "autotranslate-bot"
    else p.config.botUsername
  some
    { id := "", type := "", channelId := post.channelId,
      userId := post.userId, rootId := post.id, message := botMessage,
      props :=
        [("from_plugin", PropValue.b true),
         ("override_username", PropValue.s botUsername),
         ("override_icon_url", PropValue.s p.config.botIconURL),
         ("disable_group_highlight", PropValue.b true)] }

/-- The MessageHasBeenPosted revision of src/unnamed/part_000: identical
gates except that right after the system-message check it returns when the
post Props carry the key "from_plugin", and the reply is an
attachment-styled post with RootId copied from the original RootId. -/
def messageHasBeenPostedAlt (p : GateEnv) (post : Post) : Option Post :=
  if post.isSystemMessage then none else
  if (post.props.find? (fun kv => kv.1 == "from_plugin")).isSome then none else
  match p.getUser with
  | Except.error _ => none
  | Except.ok user =>
  if user.isBot then none else
  match p.getUserInfo with
  | Except.error _ => none
  | Except.ok userInfo =>
  if !userInfo.activated then none else
  match p.getTranslationProvider with
  | Except.error _ => none
  | Except.ok translateF =>
  match translateF post.message userInfo.sourceLanguage userInfo.targetLanguage with
  | Except.error _ => none
  | Except.ok translatedText =>
  if trimSpaceS translatedText == trimSpaceS post.message then none else
  let sourceLangDisplay :=
    if userInfo.sourceLanguage == "auto" then "detected"
    else userInfo.sourceLanguage
  let botUsername :=
    if p.config.botUsername == "" then "autotranslate-bot"
    else p.config.botUsername
  some
    { id := "", type := "", channelId := post.channelId,
      userId := post.userId, rootId := post.rootId, message := "",
      props :=
        [("from_plugin", PropValue.b true),
         ("override_username", PropValue.s botUsername),
         ("override_icon_url", PropValue.s p.config.botIconURL),
         ("disable_group_highlight", PropValue.b true),
         ("attachments", PropValue.atts
           [{ text := translatedText,
              pretext := "🌐 **Translation** [" ++ sourceLangDisplay ++
                " → " ++ userInfo.targetLanguage ++ "]",
              color := "#3AA3E3" }])] }

/-- A well-configured environment: human user, activated auto-to-en
preference, provider that translates "hi" to "bonjour". -/
def envReady : GateEnv :=
  { config := { botUsername := "", botIconURL := "" },
    getUser := Except.ok { isBot := false },
    getUserInfo := Except.ok
      { activated := true, sourceLanguage := "auto", targetLanguage := "en" },
    getTranslationProvider := Except.ok (fun _ _ _ => Except.ok "bonjour") }

/-- An inbound post that already carries the outbound marker flag. -/
def markedPost : Post :=
  { id := "p1", type := "", userId := "u1", channelId := "c1", rootId := "",
    message := "hi", props := [("from_plugin", PropValue.b true)] }

/-- An inbound post that is itself a reply inside a thread. -/
def replyPost : Post :=
  { id := "p2", type := "", userId := "u1", channelId := "c1",
    rootId := "r1", message := "hi", props := [] }

/-- An ordinary inbound root post without marker. -/
def plainPost : Post :=
  { id := "p3", type := "", userId := "u1", channelId := "c1", rootId := "",
    message := "hi", props := [] }

/-- The reply activate_hooks.go composes for plainPost under envReady. -/
def translatedReply : Post :=
  { id := "", type := "", channelId := "c1", userId := "u1", rootId := "p3",
    message := "**[detected → en]**\nbonjour",
    props :=
      [("from_plugin", PropValue.b true),
       ("override_username", PropValue.s "autotranslate-bot"),
       ("override_icon_url", PropValue.s ""),
       ("disable_group_highlight", PropValue.b true)] }

/-- An environment whose provider echoes the message back with extra
surrounding whitespace (trim-equal to the original). -/
def envEcho : GateEnv :=
  { config := { botUsername := "", botIconURL := "" },
    getUser := Except.ok { isBot := false },
    getUserInfo := Except.ok
      { activated := true, sourceLanguage := "auto", targetLanguage := "en" },
    getTranslationProvider := Except.ok (fun _ _ _ => Except.ok " hi ") }

/-- A dropWhile fixed point is inherited by every prefix. -/
theorem dropWhile_eq_self_of_front {α : Type} {p : α → Bool} {t u : List α}
    (ht : t.dropWhile p = t) (hu : u <+: t) : u.dropWhile p = u := by
  cases u with
  | nil => simp
  | cons a u2 =>
    cases t with
    | nil =>
      obtain ⟨s, hs⟩ := hu
      simp at hs
    | cons b t2 =>
      obtain ⟨s, hs⟩ := hu
      have hab : a = b := by
        have h0 := congrArg List.head? hs
        simpa using h0
      subst hab
      rw [List.dropWhile_cons] at ht ⊢
      by_cases hpa : p a = true
      · rw [if_pos hpa] at ht
        have h1 : (t2.dropWhile p).length ≤ t2.length :=
          (List.dropWhile_sublist _).length_le

        rw [ht] at h1
        simp at h1
      · rw [if_neg hpa]

/-- Go strings.TrimSpace is idempotent. -/
theorem trimSpace_trimSpace (l : List Char) :
    trimSpace (trimSpace l) = trimSpace l := by
  unfold trimSpace
  have h1 : ((l.dropWhile isGoSpace).rdropWhile isGoSpace).dropWhile isGoSpace
      = (l.dropWhile isGoSpace).rdropWhile isGoSpace :=
    dropWhile_eq_self_of_front (List.dropWhile_idempotent isGoSpace l)
      (List.rdropWhile_prefix isGoSpace (l.dropWhile isGoSpace))
  rw [h1, List.rdropWhile_idempotent]

/-- The trimmed text is a contiguous segment of the original. -/
theorem trimSpace_seg (l : List Char) : trimSpace l <:+: l :=
  ((List.rdropWhile_prefix isGoSpace (l.dropWhile isGoSpace)).isInfix).trans
    ((List.dropWhile_suffix isGoSpace).isInfix)

/-- strIndex finds an index exactly when the needle occurs contiguously. -/
theorem strIndex_isSome_iff {n h : List Char} :
    (strIndex n h).isSome = true ↔ n <:+: h := by
  induction h with
  | nil =>
    by_cases hn : n = []
    · subst hn; simp [strIndex]
    · simp [strIndex, hn]
  | cons c rest ih =>
    rw [strIndex]
    by_cases hp : n.isPrefixOf (c :: rest)
    · rw [if_pos hp]
      simp only [Option.isSome_some, true_iff]
      exact (List.isPrefixOf_iff_prefix.mp hp).isInfix
    · rw [if_neg hp]
      have hmap : ((strIndex n rest).map (· + 1)).isSome = (strIndex n rest).isSome := by
        cases strIndex n rest <;> rfl
      rw [hmap, ih, List.infix_cons_iff]
      have hpf : ¬ n <+: c :: rest := fun hc => hp (List.isPrefixOf_iff_prefix.mpr hc)
      tauto

/-- Absence of an occurrence passes to contiguous segments. -/
theorem strIndex_eq_none_of_seg {n t h : List Char}
    (hn : strIndex n h = none) (ht : t <:+: h) : strIndex n t = none := by
  cases ho : strIndex n t with
  | none => rfl
  | some i =>
    have h1 : n <:+: t := strIndex_isSome_iff.mp (by rw [ho]; rfl)
    have h2 := strIndex_isSome_iff.mpr (h1.trans ht)
    rw [hn] at h2
    cases h2

/-- Text before the first occurrence contains no occurrence. -/
theorem strIndex_take_of_some {n : List Char} (hne : n ≠ []) :
    ∀ (h : List Char) (i : Nat), strIndex n h = some i →
      strIndex n (h.take i) = none := by
  intro h
  induction h with
  | nil =>
    intro i hi
    rw [strIndex, if_neg hne] at hi
    cases hi
  | cons c rest ih =>
    intro i hi
    rw [strIndex] at hi
    by_cases hp : n.isPrefixOf (c :: rest)
    · rw [if_pos hp] at hi
      cases hi
      simp only [List.take_zero]
      rw [strIndex, if_neg hne]
    · rw [if_neg hp] at hi
      cases ho : strIndex n rest with
      | none => rw [ho] at hi; cases hi
      | some j =>
        rw [ho] at hi
        simp only [Option.map_some'] at hi
        cases hi
        rw [List.take_succ_cons, strIndex]
        have h1 : ¬ n.isPrefixOf (c :: rest.take j) = true := by
          intro hc
          apply hp
          have hc2 : n <+: c :: rest.take j := List.isPrefixOf_iff_prefix.mp hc
          have h3 : c :: rest.take j <+: c :: rest := by
            rw [← List.take_succ_cons]
            exact List.take_prefix _ _
          exact List.isPrefixOf_iff_prefix.mpr (hc2.trans h3)
        rw [if_neg h1, ih j ho]
        rfl

/-- truncAt with a found marker leaves no marker occurrence behind. -/
theorem truncAt_no_marker {m : List Char} (hm : m ≠ []) (t : List Char) :
    strIndex m (truncAt m t) = none := by
  cases ho : strIndex m t with
  | none => simp only [truncAt, ho]
  | some i => simp only [truncAt, ho]; exact strIndex_take_of_some hm t i ho

theorem truncAt_front (m t : List Char) : truncAt m t <+: t := by
  cases ho : strIndex m t with
  | none => simp only [truncAt, ho]; exact List.prefix_refl t
  | some i => simp only [truncAt, ho]; exact List.take_prefix i t

theorem truncAt_eq_self {m u : List Char} (h : strIndex m u = none) :
    truncAt m u = u := by
  simp [truncAt, h]

/-- The final stage of the sanitizer returns trimmed text. -/
theorem cleanTail_trim (t : List Char) :
    trimSpace (cleanTail t) = cleanTail t :=
  trimSpace_trimSpace _

/-- The final stage of the sanitizer leaves no note marker. -/
theorem cleanTail_no_note (t : List Char) :
    strIndex noteMarker (cleanTail t) = none := by
  have h1 : strIndex noteMarker (truncAt noteMarker t) = none :=
    truncAt_no_marker (by decide) t
  have h2 : strIndex noteMarker (truncAt explMarker (truncAt noteMarker t)) = none :=
    strIndex_eq_none_of_seg h1 ((truncAt_front _ _).isInfix)
  exact strIndex_eq_none_of_seg h2 (trimSpace_seg _)

/-- The final stage of the sanitizer leaves no explanation marker. -/
theorem cleanTail_no_expl (t : List Char) :
    strIndex explMarker (cleanTail t) = none := by
  have h1 : strIndex explMarker (truncAt explMarker (truncAt noteMarker t)) = none :=
    truncAt_no_marker (by decide) _
  exact strIndex_eq_none_of_seg h1 (trimSpace_seg _)

/-- Every successful sanitizer output is a cleanTail value. -/
theorem cleanTranslationOutput_shape {x y : List Char}
    (h : cleanTranslationOutput x = some y) : ∃ t, y = cleanTail t := by
  unfold cleanTranslationOutput quoteStage at h
  split at h
  · split at h
    · exact ⟨_, (Option.some.inj h).symm⟩
    · cases h
  · exact ⟨_, (Option.some.inj h).symm⟩

/-- The label-stripping pass is the identity when no label matches. -/
theorem stripLabels_eq_self {y : List Char}
    (h1 : ∀ p ∈ unwantedPrefixes, p.isPrefixOf y = false) :
    stripLabels y = y := by
  have a1 := h1 _ (show "Translation: ".data ∈ unwantedPrefixes by
    simp [unwantedPrefixes])
  have a2 := h1 _ (show "Translated text: ".data ∈ unwantedPrefixes by
    simp [unwantedPrefixes])
  have a3 := h1 _ (show "Here is the translation: ".data ∈ unwantedPrefixes by
    simp [unwantedPrefixes])
  have a4 := h1 _ (show "The translation is: ".data ∈ unwantedPrefixes by
    simp [unwantedPrefixes])
  have a5 := h1 _ (show "Output: ".data ∈ unwantedPrefixes by
    simp [unwantedPrefixes])
  have a6 := h1 _ (show "Answer: ".data ∈ unwantedPrefixes by
    simp [unwantedPrefixes])
  have a7 := h1 _ (show "Result: ".data ∈ unwantedPrefixes by
    simp [unwantedPrefixes])
  simp [stripLabels, unwantedPrefixes, stripLabelStep, a1, a2, a3, a4, a5, a6, a7]

/-- C3 (counterexample): cleanTranslationOutput is not idempotent. On the
input that wraps hi in two layers of straight double quotes, one application
strips exactly one layer, and a second application strips another, so
Clean(Clean(x)) differs from Clean(x). -/
theorem cleanTranslationOutput_not_idem_cex :
    cleanTranslationOutput ("\x22\x22hi\x22\x22".data) = some ("\x22hi\x22".data) ∧
    cleanTranslationOutput ("\x22hi\x22".data) = some ("hi".data) ∧
    "\x22hi\x22".data ≠ "hi".data := by
  refine ⟨by decide, by decide, by decide⟩

/-- C3 (amended): cleanTranslationOutput is idempotent on every input whose
cleaned output neither starts with one of the unwanted label prefixes nor is
wrapped in a matching pair of straight quotes; re-application then performs
no further stripping and returns the cleaned text unchanged. -/
theorem cleanTranslationOutput_idem_of_stable (x y : List Char)
    (h : cleanTranslationOutput x = some y)
    (h1 : ∀ p ∈ unwantedPrefixes, p.isPrefixOf y = false)
    (h2 : quoteWrapped y = false) :
    cleanTranslationOutput y = some y := by
  obtain ⟨t, rfl⟩ := cleanTranslationOutput_shape h
  unfold cleanTranslationOutput
  rw [cleanTail_trim, stripLabels_eq_self h1]
  unfold quoteStage
  rw [h2]
  simp only [Bool.false_eq_true, if_false]
  congr 1
  have hdef : cleanTail (cleanTail t)
      = trimSpace (truncAt explMarker (truncAt noteMarker (cleanTail t))) := rfl
  rw [hdef, truncAt_eq_self (cleanTail_no_note t),
    truncAt_eq_self (cleanTail_no_expl t)]
  exact cleanTail_trim t

/-- Witness for the amended C3 theorem at a concrete input. -/
theorem cleanTranslationOutput_idem_of_stable_witness :
    cleanTranslationOutput ("Hello".data) = some ("Hello".data) :=
  cleanTranslationOutput_idem_of_stable (" Hello ".data) ("Hello".data)
    (by decide) (by decide) (by decide)

/-- C4: the quote-stripping slice of cleanTranslationOutput is reached with
remaining length 1 on the one-character inputs consisting of a lone straight
double quote or single quote, where the Go code evaluates text[1:0] and
panics; the model returns none exactly there. -/
theorem cleanTranslationOutput_panics_on_lone_quote :
    cleanTranslationOutput [dQuote] = none ∧
    cleanTranslationOutput [sQuote] = none := by
  refine ⟨by decide, by decide⟩

/-- C9: on the label "Translation: " followed by Hello in straight double
quotes, cleanTranslationOutput strips the label and one quote layer and
returns exactly Hello. -/
theorem cleanTranslationOutput_label_quoted_hello :
    cleanTranslationOutput ("Translation: \x22Hello\x22".data) = some ("Hello".data) := by
  decide

/-- C7: for both LLM-backed providers, a decoded backend response with an
empty choices array makes the Translate response stage return the
no-translation-returned error, not a success and not a panic. -/
theorem empty_choices_yield_error :
    (∀ r : VLLMResponse, r.choices = [] →
      vllmTranslateResponse r = some (Except.error "no translation returned from vLLM")) ∧
    (∀ r : LiteLLMChatResponse, r.choices = [] →
      litellmTranslateResponse r = some (Except.error "no translation returned from LiteLLM")) := by
  constructor
  · intro r hr
    unfold vllmTranslateResponse
    rw [hr]
  · intro r hr
    unfold litellmTranslateResponse
    rw [hr]

/-- Witness for C7 at the concrete empty responses. -/
theorem empty_choices_yield_error_witness :
    vllmTranslateResponse ⟨[]⟩ = some (Except.error "no translation returned from vLLM") ∧
    litellmTranslateResponse ⟨[]⟩ = some (Except.error "no translation returned from LiteLLM") :=
  ⟨empty_choices_yield_error.1 ⟨[]⟩ rfl, empty_choices_yield_error.2 ⟨[]⟩ rfl⟩

/-- C8: with sourceLanguage "auto", both prompt builders emit the to-only
template, which carries no from clause naming a source language; on the
spec test input (text 안녕, target en) the rune sequence from does not occur
in either prompt. -/
theorem auto_prompt_has_no_from_clause :
    (∀ text targetLang : String,
      createTranslationPrompt text "auto" targetLang =
        "Translate to " ++ getLanguageName targetLang ++
          getLanguageClarification targetLang ++
          ". Reply with ONLY the translation.\n\n" ++ text) ∧
    (∀ text targetLang : String,
      litellmUserPrompt text "auto" targetLang =
        "Translate to " ++ getLanguageName targetLang ++
          getLanguageClarification targetLang ++ ":\n\n" ++ text) ∧
    strIndex "from".data (createTranslationPrompt "안녕" "auto" "en").data = none ∧
    strIndex "from".data (litellmUserPrompt "안녕" "auto" "en").data = none := by
  refine ⟨fun text targetLang => rfl, fun text targetLang => rfl, by decide, by decide⟩

/-- Witness for C8 at a concrete text and target. -/
theorem auto_prompt_has_no_from_clause_witness :
    createTranslationPrompt "hi" "auto" "fr" =
      "Translate to " ++ getLanguageName "fr" ++ getLanguageClarification "fr" ++
        ". Reply with ONLY the translation.\n\nhi" :=
  auto_prompt_has_no_from_clause.1 "hi" "fr"

/-- C10: the chat-style request caps output at 2048 tokens, strictly more
than the completion-style 512; the completion-style request carries a
non-empty stop-sequence list while the chat-style request struct has no stop
field and transmits none. -/
theorem chat_cap_exceeds_completion_cap :
    ∀ (pv : VLLMProvider) (pl : LiteLLMProvider) (text src tgt : String),
      (pv.mkTranslateRequest text src tgt).maxTokens = 512 ∧
      (pl.mkTranslateRequest text src tgt).maxTokens = 2048 ∧
      (pv.mkTranslateRequest text src tgt).maxTokens <
        (pl.mkTranslateRequest text src tgt).maxTokens ∧
      (pv.mkTranslateRequest text src tgt).stop ≠ [] ∧
      litellmStopSequences = [] := by
  intro pv pl text src tgt
  refine ⟨rfl, rfl, ?_, by simp [VLLMProvider.mkTranslateRequest], rfl⟩
  show (512 : Nat) < 2048
  decide

/-- Witness for C10 at concrete providers and input. -/
theorem chat_cap_exceeds_completion_cap_witness :
    (VLLMProvider.mkTranslateRequest ⟨"u", "k", "m"⟩ "hi" "auto" "en").maxTokens = 512 ∧
    (LiteLLMProvider.mkTranslateRequest ⟨"u", "k", "m"⟩ "hi" "auto" "en").maxTokens = 2048 ∧
    (VLLMProvider.mkTranslateRequest ⟨"u", "k", "m"⟩ "hi" "auto" "en").maxTokens <
      (LiteLLMProvider.mkTranslateRequest ⟨"u", "k", "m"⟩ "hi" "auto" "en").maxTokens ∧
    (VLLMProvider.mkTranslateRequest ⟨"u", "k", "m"⟩ "hi" "auto" "en").stop ≠ [] ∧
    litellmStopSequences = [] :=
  chat_cap_exceeds_completion_cap ⟨"u", "k", "m"⟩ ⟨"u", "k", "m"⟩ "hi" "auto" "en"

/-- C1 (evaluation at the failing input): activate_hooks.go
MessageHasBeenPosted never inspects the from_plugin property, so an inbound
post that carries the outbound marker flag, posted by a non-bot user with an
activated preference, still produces an outbound post; the part_000 revision
of the hook rejects the same input before any user lookup. -/
theorem marked_post_still_translated :
    markedPost.getProp "from_plugin" = some (PropValue.b true) ∧
    (messageHasBeenPosted envReady markedPost).isSome = true ∧
    messageHasBeenPostedAlt envReady markedPost = none := by
  refine ⟨by decide, by decide, by decide⟩

/-- The part_000 revision of the hook rejects every marked post, whatever
the rest of the environment: the marker check precedes the user-resolution,
bot-account and preference checks. -/
theorem alt_hook_marker_guard (env : GateEnv) (post : Post)
    (h : (post.props.find? (fun kv => kv.1 == "from_plugin")).isSome = true) :
    messageHasBeenPostedAlt env post = none := by
  unfold messageHasBeenPostedAlt
  simp [h]

/-- Closed instance of the part_000 marker guard. -/
theorem alt_hook_marker_guard_witness :
    messageHasBeenPostedAlt envEcho markedPost = none :=
  alt_hook_marker_guard envEcho markedPost (by decide)

/-- C2: every outbound post either hook revision hands to CreatePost carries
the from_plugin property set to true. -/
theorem outbound_carries_marker (env : GateEnv) (post q : Post)
    (h : messageHasBeenPosted env post = some q ∨
         messageHasBeenPostedAlt env post = some q) :
    q.getProp "from_plugin" = some (PropValue.b true) := by
  rcases h with h | h
  · unfold messageHasBeenPosted at h
    repeat' split at h
    all_goals try exact Option.noConfusion h
    all_goals injection h with h2
    all_goals subst h2
    all_goals rfl
  · unfold messageHasBeenPostedAlt at h
    repeat' split at h
    all_goals try exact Option.noConfusion h
    all_goals injection h with h2
    all_goals subst h2
    all_goals rfl

/-- Witness for C2: the concrete reply for plainPost carries the marker. -/
theorem outbound_carries_marker_witness :
    translatedReply.getProp "from_plugin" = some (PropValue.b true) :=
  outbound_carries_marker envReady plainPost translatedReply
    (Or.inl (by decide))

/-- C5 (counterexample): the original post replyPost is itself a reply with
thread root r1, yet the outbound post is threaded to the reply id p2, not to
the thread root. -/
theorem reply_not_threaded_to_root_cex :
    replyPost.rootId = "r1" ∧ replyPost.rootId ≠ "" ∧
    (messageHasBeenPosted envReady replyPost).map Post.rootId = some "p2" ∧
    replyPost.id = "p2" ∧ ("p2" : String) ≠ "r1" := by
  refine ⟨rfl, by decide, by decide, rfl, by decide⟩

/-- C5 (amended): on a successful translation the outbound post is threaded
to the original post itself (RootId is always the original post Id, also
when the original is a reply), keeps the original poster as author, and its
body is the bold header of sourceDisplay and target language followed by the
translated text, where sourceDisplay is the literal detected exactly when
the source language is auto. -/
theorem outbound_post_shape (env : GateEnv) (post : Post) (u : User)
    (ui : UserInfo) (f : String → String → String → Except String String)
    (t : String)
    (hsys : post.isSystemMessage = false)
    (hu : env.getUser = Except.ok u)
    (hb : u.isBot = false)
    (hi : env.getUserInfo = Except.ok ui)
    (ha : ui.activated = true)
    (hp : env.getTranslationProvider = Except.ok f)
    (ht : f post.message ui.sourceLanguage ui.targetLanguage = Except.ok t)
    (hne : (trimSpaceS t == trimSpaceS post.message) = false) :
    messageHasBeenPosted env post = some
      { id := "", type := "", channelId := post.channelId,
        userId := post.userId, rootId := post.id,
        message := "**[" ++
          (if ui.sourceLanguage == "auto" then "detected"
           else ui.sourceLanguage) ++ " → " ++ ui.targetLanguage ++
          "]**\n" ++ t,
        props :=
          [("from_plugin", PropValue.b true),
           ("override_username", PropValue.s
             (if env.config.botUsername == "" then "autotranslate-bot"
              else env.config.botUsername)),
           ("override_icon_url", PropValue.s env.config.botIconURL),
           ("disable_group_highlight", PropValue.b true)] } := by
  simp [messageHasBeenPosted, hsys, hu, hb, hi, ha, hp, ht, hne]

/-- Witness for the amended C5 theorem on a concrete event. -/
theorem outbound_post_shape_witness :
    messageHasBeenPosted envReady plainPost = some translatedReply :=
  outbound_post_shape envReady plainPost { isBot := false }
    { activated := true, sourceLanguage := "auto", targetLanguage := "en" }
    (fun _ _ _ => Except.ok "bonjour") "bonjour"
    rfl rfl rfl rfl rfl rfl rfl (by decide)

/-- C6: if the translator returns text equal to the original message after
trimming, the hook creates no outbound post, whatever the remaining state of
the gates. -/
theorem same_trimmed_translation_no_post (env : GateEnv) (post : Post)
    (f : String → String → String → Except String String)
    (hp : env.getTranslationProvider = Except.ok f)
    (ht : ∀ src tgt t, f post.message src tgt = Except.ok t →
      trimSpaceS t = trimSpaceS post.message) :
    messageHasBeenPosted env post = none := by
  obtain ⟨cfg, gu, gui, gp⟩ := env
  simp only at hp
  subst hp
  by_cases hsys : post.isSystemMessage
  · simp [messageHasBeenPosted, hsys]
  · cases gu with
    | error e => simp [messageHasBeenPosted, hsys]
    | ok user =>
      by_cases hbot : user.isBot
      · simp [messageHasBeenPosted, hsys, hbot]
      · cases gui with
        | error e => simp [messageHasBeenPosted, hsys, hbot]
        | ok ui =>
          by_cases hact : ui.activated
          · cases hft : f post.message ui.sourceLanguage ui.targetLanguage with
            | error e =>
              simp [messageHasBeenPosted, hsys, hbot, hact, hft]
            | ok t =>
              have heq := ht _ _ _ hft
              simp [messageHasBeenPosted, hsys, hbot, hact, hft, heq]
          · simp [messageHasBeenPosted, hsys, hact]

/-- Witness for C6: a provider echoing the message with extra whitespace
produces no outbound post. -/
theorem same_trimmed_translation_no_post_witness :
    messageHasBeenPosted envEcho plainPost = none :=
  same_trimmed_translation_no_post envEcho plainPost
    (fun _ _ _ => Except.ok " hi ") rfl
    (by intro src tgt t h; cases h; decide)

end Autotranslate
